import Mathlib

/-!
Shallow embedding of the flights-Data service core: two source variants of the
normalization and aggregation pipeline behind `GET /api/flights`.

Variant A ("API variant", `src/unnamed/part_000`): fetches a JSON payload
`{totalFlightCount, flightData}` and normalizes each record in `getFlightData`.

Variant B ("DOM variant", `src/app.js`): scrapes flight cards from the page in
`getFlightTimes` and normalizes each card inside `page.evaluate`.

JavaScript values that may be `undefined` or a string are modelled as
`Option String`; JS string truthiness is emptiness; `parseInt(s, 10)` is
modelled faithfully (leading whitespace, optional sign, longest digit prefix,
no requirement to consume the whole string); the `minFlights = Infinity`
accumulator is modelled as `Option Nat` with `none` standing for `Infinity`.
-/

/-- JS character classified as whitespace by `trim` and `parseInt`. -/
def isJsSpace (c : Char) : Bool :=
  c == ' ' || c == '\t' || c == '\n' || c == '\r' || c == '\x0b' || c == '\x0c'

/-- Lowercase an ASCII character, as `String.prototype.toLowerCase` does on the
ASCII inputs this service sees. -/
def lowerChar (c : Char) : Char :=
  if 65 ≤ c.toNat && c.toNat ≤ 90 then Char.ofNat (c.toNat + 32) else c

/-- Model of `s.toLowerCase()`. -/
def strLower (s : String) : String := String.mk (s.toList.map lowerChar)

/-- Model of `s.trim()`. -/
def strTrim (s : String) : String :=
  String.mk (((s.toList.dropWhile isJsSpace).reverse.dropWhile isJsSpace).reverse)

/-- Whether `pat` occurs at the head of `s` (helper for substring search). -/
def leadMatch : List Char → List Char → Bool
  | [], _ => true
  | _ :: _, [] => false
  | p :: ps, c :: cs => p == c && leadMatch ps cs

/-- Whether `pat` occurs somewhere in `s` (helper for substring search). -/
def hasSub (pat : List Char) : List Char → Bool
  | [] => leadMatch pat []
  | c :: rest => leadMatch pat (c :: rest) || hasSub pat rest

/-- Model of `s.includes(pat)`. -/
def strIncludes (s pat : String) : Bool := hasSub pat.toList s.toList

/-- Model of `arr.join(sep)`. -/
def joinWith (sep : String) : List String → String
  | [] => ""
  | [s] => s
  | s :: rest => s ++ sep ++ joinWith sep rest

/-- Truthiness of a JS value that is either `undefined` or a string. -/
def jsTruthy : Option String → Bool
  | none => false
  | some s => !s.isEmpty

/-- Model of `v || d` for an undefined-or-string `v` and a string default. -/
def jsOr (v : Option String) (d : String) : String :=
  match v with
  | none => d
  | some s => if s.isEmpty then d else s

/-- Value of a list of decimal digit characters. -/
def digitsVal (ds : List Char) : Nat :=
  ds.foldl (fun n c => n * 10 + (c.toNat - 48)) 0

/-- Longest decimal-digit prefix, or `none` when there is none. -/
def leadingDigits (cs : List Char) : Option Nat :=
  let ds := cs.takeWhile Char.isDigit
  if ds.isEmpty then none else some (digitsVal ds)

/-- Model of `parseInt(s, 10)`: skip leading whitespace, read an optional sign,
then the longest prefix of decimal digits; `none` models `NaN`. -/
def parseIntDec (s : String) : Option Int :=
  match s.toList.dropWhile isJsSpace with
  | '-' :: rest => (leadingDigits rest).map (fun n => -(n : Int))
  | '+' :: rest => (leadingDigits rest).map (fun n => (n : Int))
  | cs => (leadingDigits cs).map (fun n => (n : Int))

/-- Model of `parseInt(t.split(':')[0], 10)`: the first component of
`split(':')` is the longest prefix free of `':'`. -/
def hourOfTime (t : String) : Option Int :=
  parseIntDec (String.mk (t.toList.takeWhile (fun c => c != ':')))

/-- Canonical flight status enum. -/
inductive FlightStatus where
  | onTime
  | delayed
  | cancelled
deriving DecidableEq

/-- Terminal enum: T3 is the Qantas terminal. -/
inductive Terminal where
  | T2
  | T3
deriving DecidableEq

/-- One hour bucket `{T2, T3, total}` of the histogram. -/
structure Bucket where
  T2 : Nat
  T3 : Nat
  total : Nat
deriving DecidableEq

def zeroBucket : Bucket := ⟨0, 0, 0⟩

/-- The three status counters of the report. -/
structure Statuses where
  on_time : Nat
  cancelled : Nat
  delayed : Nat
deriving DecidableEq

/-- Increment the terminal-specific counter and the total of a bucket, as the
body of the `flightData.forEach` hour loop does. -/
def bumpBucket (b : Bucket) (t3 : Bool) : Bucket :=
  if t3 then { b with T3 := b.T3 + 1, total := b.total + 1 }
  else { b with T2 := b.T2 + 1, total := b.total + 1 }

/-- One step of the `forEach` filling `flightCountByHour`: when the parsed hour
is a number, bump that hour key of the map (map modelled as a total function
with zero default, which is observationally identical because every read of the
map is guarded by `|| {T2:0, T3:0, total:0}` or `?.total || 0`). -/
def addFlight (hourOf : α → Option Int) (t3 : α → Bool)
    (m : Int → Bucket) (f : α) : Int → Bucket :=
  match hourOf f with
  | none => m
  | some h => fun k => if k == h then bumpBucket (m h) (t3 f) else m k

/-- The `flightData.forEach` loop building `flightCountByHour`. -/
def countByHour (hourOf : α → Option Int) (t3 : α → Bool) (l : List α) :
    Int → Bucket :=
  l.foldl (addFlight hourOf t3) (fun _ => zeroBucket)

/-- Accumulator of the peak-hours scan: `minFlights = none` models the JS
initial value `Infinity`. -/
structure PeakState where
  maxFlights : Nat
  maxHour : Nat
  minFlights : Option Nat
  minHour : Nat
deriving DecidableEq

/-- Model of `count < minFlights` where `minFlights` may be `Infinity`. -/
def ltInf (c : Nat) : Option Nat → Bool
  | none => true
  | some v => c < v

/-- Body of the `for (let hour = 0; hour < 24; hour++)` scan. -/
def peakStep (counts : Int → Bucket) (st : PeakState) (hour : Nat) : PeakState :=
  let count := (counts ((hour : Nat) : Int)).total
  let st1 :=
    if st.maxFlights < count then { st with maxFlights := count, maxHour := hour }
    else st
  if ltInf count st1.minFlights && decide (0 < count) then
    { st1 with minFlights := some count, minHour := hour }
  else st1

/-- The full 0..23 peak-hours scan. -/
def peakScan (counts : Int → Bucket) : PeakState :=
  (List.range 24).foldl (peakStep counts) ⟨0, 0, none, 0⟩

/-- Model of `[...new Set(xs)]`: first-seen-order deduplication. -/
def dedupKeepFirst (l : List String) : List String :=
  l.foldl (fun acc s => if acc.contains s then acc else acc ++ [s]) []

/-- Model of `[...new Set(xs)].filter(Boolean)`. -/
def uniqueNonEmpty (l : List String) : List String :=
  (dedupKeepFirst l).filter (fun s => !s.isEmpty)

/-! ## Variant A: the API variant (`src/unnamed/part_000`) -/

/-- One raw record of the JSON payload field `flightData`; every field may be
absent (`undefined`). -/
structure ApiRecord where
  id : Option String := none
  scheduledTime : Option String := none
  estimatedTime : Option String := none
  status : Option String := none
  statusColor : Option String := none
  airline : Option String := none
  airlineCode : Option String := none
  flightNumbers : Option (List String) := none
  origins : Option (List String) := none
  destinations : Option (List String) := none
deriving DecidableEq

/-- Status classification of `getFlightData` (part_000 lines 88-98): the whole
rule set is guarded by `if (flight.status)`; `statusColor` is never consulted. -/
def apiStatus (r : ApiRecord) : FlightStatus :=
  if jsTruthy r.status then
    let statusLower := strLower (r.status.getD "")
    if strIncludes statusLower "cancel" then .cancelled
    else if strIncludes statusLower "delay" ||
        (jsTruthy r.estimatedTime && !(r.estimatedTime == r.scheduledTime)
          && !(r.estimatedTime == some "-")) then .delayed
    else .onTime
  else .onTime

/-- Terminal test of `getFlightData`:
`flight.airline && flight.airline.toLowerCase().includes('qantas')`. -/
def apiIsT3 (r : ApiRecord) : Bool :=
  jsTruthy r.airline && strIncludes (strLower (r.airline.getD "")) "qantas"

/-- Canonical flight produced by `getFlightData`. -/
structure ApiFlight where
  id : Option String
  scheduledTime : String
  estimatedTime : String
  status : FlightStatus
  statusColor : String
  airline : String
  airlineCode : String
  flightNumber : String
  location : String
  terminal : Terminal
  rawStatus : String
deriving DecidableEq

/-- The `data.flightData.map` callback of `getFlightData` (lines 86-126). -/
def normalizeApi (r : ApiRecord) : ApiFlight where
  id := r.id
  scheduledTime := jsOr r.scheduledTime ""
  estimatedTime := jsOr r.estimatedTime ""
  status := apiStatus r
  statusColor := jsOr r.statusColor ""
  airline := jsOr r.airline ""
  airlineCode := jsOr r.airlineCode ""
  flightNumber :=
    match r.flightNumbers with
    | some l => joinWith ", " l
    | none => ""
  location :=
    match r.destinations with
    | some l => joinWith ", " l
    | none =>
      match r.origins with
      | some l => joinWith ", " l
      | none => ""
  terminal := if apiIsT3 r then .T3 else .T2
  rawStatus := jsOr r.status "Unknown"

/-- Hour key used by the API-variant aggregation loop. -/
def apiHourOf (f : ApiFlight) : Option Int := hourOfTime f.scheduledTime

/-- Terminal test used by the API-variant aggregation loop:
`flight.terminal === 'T3'`. -/
def apiT3 (f : ApiFlight) : Bool := f.terminal == Terminal.T3

/-- Report assembled by the API-variant `/api/flights` handler (the request
echo fields and the wall-clock metadata are omitted; `lowest_count` holds
`minFlights !== Infinity ? minFlights : 0`). -/
structure ApiReport where
  total_flights : Nat
  flight_count : List Bucket
  flight_statuses : Statuses
  max_hour : Nat
  max_count : Nat
  lowest_hour : Nat
  lowest_count : Nat
  airlines : List String
  locations : List String
  sample_flights : List ApiFlight
deriving DecidableEq

/-- Aggregation and report assembly of the API-variant handler (part_000 lines
180-262); `total_flights` is the upstream `totalFlightCount`, not the length of
the processed list. -/
def apiAggregate (totalFlights : Nat) (flights : List ApiFlight) : ApiReport :=
  let counts := countByHour apiHourOf apiT3 flights
  let st := peakScan counts
  { total_flights := totalFlights
    flight_count := (List.range 24).map (fun h => counts ((h : Nat) : Int))
    flight_statuses :=
      ⟨(flights.filter (fun f => f.status == .onTime)).length,
       (flights.filter (fun f => f.status == .cancelled)).length,
       (flights.filter (fun f => f.status == .delayed)).length⟩
    max_hour := st.maxHour
    max_count := st.maxFlights
    lowest_hour := st.minHour
    lowest_count := st.minFlights.getD 0
    airlines := uniqueNonEmpty (flights.map (fun f => f.airline))
    locations := uniqueNonEmpty (flights.map (fun f => f.location))
    sample_flights := flights.take 5 }

/-! ## Variant B: the DOM-scraped variant (`src/app.js`) -/

/-- The `.status` element inside a card's `.status-container`, when present:
its text content and its `red` / `amber` class flags. -/
structure DomStatusEl where
  text : String
  red : Bool
  amber : Bool
deriving DecidableEq

/-- One scraped `.flight-card`: each queried element may be missing. -/
structure DomCard where
  scheduledTimeEl : Option String := none
  flightNumberEl : Option String := none
  originEl : Option String := none
  statusEl : Option DomStatusEl := none
  delayedTimeSmall : Bool := false
  airlineEl : Option String := none
deriving DecidableEq

/-- Status classification inside `page.evaluate` (app.js lines 103-119): the
DOM variant looks for the substrings "cancelled" and "delayed", not "cancel"
and "delay". -/
def domStatus (c : DomCard) : FlightStatus :=
  match c.statusEl with
  | none => .onTime
  | some e =>
    let statusText := strLower (strTrim e.text)
    if strIncludes statusText "cancelled" || e.red then .cancelled
    else if strIncludes statusText "delayed" || e.amber || c.delayedTimeSmall then
      .delayed
    else .onTime

/-- Canonical flight produced by the DOM scraper. -/
structure DomFlight where
  scheduledTime : String
  status : FlightStatus
  airline : String
  flightNumber : String
  origin : String
  rawStatus : String
deriving DecidableEq

/-- The per-card normalization of `getFlightTimes` (app.js lines 89-136). -/
def normalizeDom (c : DomCard) : DomFlight where
  scheduledTime :=
    match c.scheduledTimeEl with
    | some t => strTrim t
    | none => ""
  status := domStatus c
  airline :=
    match c.airlineEl with
    | some t => strLower (strTrim t)
    | none => ""
  flightNumber :=
    match c.flightNumberEl with
    | some t => strTrim t
    | none => ""
  origin :=
    match c.originEl with
    | some t => strTrim t
    | none => ""
  rawStatus :=
    match c.statusEl with
    | some e => strTrim e.text
    | none => "Unknown"

/-- Hour key used by the DOM-variant aggregation loop. -/
def domHourOf (f : DomFlight) : Option Int := hourOfTime f.scheduledTime

/-- Terminal test used by the DOM-variant aggregation loop:
`flight.airline.includes('qantas')` on the already-lowercased airline. -/
def domIsT3 (f : DomFlight) : Bool := strIncludes f.airline "qantas"

/-- Report assembled by the DOM-variant `/api/flights` handler; `lowest_count`
is the raw `minFlights` value, which is still `Infinity` (here `none`) when no
hour has a flight. -/
structure DomReport where
  total_flights : Nat
  flight_count : List Bucket
  flight_statuses : Statuses
  max_hour : Nat
  max_count : Nat
  lowest_hour : Nat
  lowest_count : Option Nat
  airlines : List String
  origins : List String
  sample_flights : List DomFlight
deriving DecidableEq

/-- Aggregation and report assembly of the DOM-variant handler (app.js lines
196-276); `total_flights` is `flightData.length`. -/
def domAggregate (flights : List DomFlight) : DomReport :=
  let counts := countByHour domHourOf domIsT3 flights
  let st := peakScan counts
  { total_flights := flights.length
    flight_count := (List.range 24).map (fun h => counts ((h : Nat) : Int))
    flight_statuses :=
      ⟨(flights.filter (fun f => f.status == .onTime)).length,
       (flights.filter (fun f => f.status == .cancelled)).length,
       (flights.filter (fun f => f.status == .delayed)).length⟩
    max_hour := st.maxHour
    max_count := st.maxFlights
    lowest_hour := st.minHour
    lowest_count := st.minFlights
    airlines := uniqueNonEmpty (flights.map (fun f => f.airline))
    origins := uniqueNonEmpty (flights.map (fun f => f.origin))
    sample_flights := flights.take 5 }

/-! ## Parameter validation and the request handlers -/

set_option maxRecDepth 100000

def validFlightTypes : List String := ["domestic", "international"]

def validDates : List String := ["today", "yesterday", "tomorrow", "day_after_tomorrow"]

def validDirections : List String := ["arrival", "departure"]

/-- Truthiness of a plain JS string. -/
def strTruthy (s : String) : Bool := !s.isEmpty

/-- The `validateParams` function of the API variant (part_000 lines 34-52):
each check is guarded by the truthiness of the parameter, so an empty string is
never rejected. `some msg` is the invalid case. -/
def validateParams (date flightType flightDirection : String) : Option String :=
  if strTruthy flightType && !(validFlightTypes.contains flightType) then
    some "Invalid flight type. Use \x22domestic\x22 or \x22international\x22."
  else if strTruthy date && !(validDates.contains date) then
    some "Invalid date. Use \x22today\x22, \x22yesterday\x22, \x22tomorrow\x22, or \x22day_after_tomorrow\x22."
  else if strTruthy flightDirection && !(validDirections.contains flightDirection) then
    some "Invalid flight direction. Use \x22arrival\x22 or \x22departure\x22."
  else none

/-- The `validateParams` function of the DOM variant (app.js lines 34-47):
no `flightDirection` parameter. -/
def validateParamsDom (date flightType : String) : Option String :=
  if strTruthy flightType && !(validFlightTypes.contains flightType) then
    some "Invalid flight type. Use \x22domestic\x22 or \x22international\x22."
  else if strTruthy date && !(validDates.contains date) then
    some "Invalid date. Use \x22today\x22, \x22yesterday\x22, \x22tomorrow\x22, or \x22day_after_tomorrow\x22."
  else none

/-- Model of the destructuring default `const {date = 'today'} = req.query`:
the default applies only when the query parameter is absent (`undefined`), not
when it is present but empty. -/
def resolveQ (q : Option String) (d : String) : String := q.getD d

/-- One element of the raw `flightData` array: either a well-formed record, or
a malformed entry (for example `null`, or a record with a non-string `status`)
whose processing inside the `map` callback throws. -/
inductive RawApi where
  | entry (r : ApiRecord)
  | malformed
deriving DecidableEq

/-- Processing of one raw array element by the `map` callback of
`getFlightData`, which has no per-record `try`/`catch`: a malformed record
throws (modelled as `Except.error`). -/
def processApiRecord : RawApi → Except String ApiFlight
  | .entry r => .ok (normalizeApi r)
  | .malformed => .error "TypeError"

/-- The `data.flightData.map(...)` call with JS exception semantics: the first
throwing record aborts the whole map. -/
def mapFlights : List RawApi → Except String (List ApiFlight)
  | [] => .ok []
  | r :: rest => do
    let f ← processApiRecord r
    let fs ← mapFlights rest
    pure (f :: fs)

/-- The pure core of `getFlightData` (part_000 lines 74-138): `none` models a
response whose `flightData` field is missing or not an array; otherwise the
records are mapped, and a throwing record aborts the whole map. -/
def getFlightData (payload : Option (Nat × List RawApi)) :
    Except String (Nat × List ApiFlight) :=
  match payload with
  | none => .error "Unexpected API response format"
  | some (total, raws) => do
    let flights ← mapFlights raws
    pure (total, flights)

/-- One scraped `.flight-card` DOM node: either a readable card, or one whose
processing inside the `forEach` callback throws. -/
inductive RawCard where
  | card (c : DomCard)
  | malformed
deriving DecidableEq

/-- The card loop of `getFlightTimes` (app.js lines 89-141): each card is
processed inside `try`/`catch`, so a throwing card is skipped and the loop
continues. -/
def getFlightTimesCards (cards : List RawCard) : List DomFlight :=
  cards.filterMap (fun c =>
    match c with
    | .card c => some (normalizeDom c)
    | .malformed => none)

/-- Outcome of one `/api/flights` request: HTTP 400, HTTP 500, or the report. -/
inductive HandlerOutcome (ρ : Type) where
  | badRequest (msg : String)
  | serverError (msg : String)
  | ok (report : ρ)
deriving DecidableEq

/-- The API-variant `/api/flights` handler (part_000 lines 149-281): resolve
defaults, validate, then acquire and aggregate; `acq` is the acquisition
outcome (`Except.error` models a transport failure or timeout). -/
def apiHandler (dateQ flightTypeQ flightDirQ : Option String)
    (acq : Except String (Option (Nat × List RawApi))) : HandlerOutcome ApiReport :=
  let date := resolveQ dateQ "today"
  let flightType := resolveQ flightTypeQ "domestic"
  let flightDirection := resolveQ flightDirQ "departure"
  match validateParams date flightType flightDirection with
  | some msg => .badRequest msg
  | none =>
    match acq with
    | .error e => .serverError e
    | .ok payload =>
      match getFlightData payload with
      | .error e => .serverError e
      | .ok (total, flights) => .ok (apiAggregate total flights)

/-- The DOM-variant `/api/flights` handler (app.js lines 169-294). -/
def domHandler (dateQ flightTypeQ : Option String)
    (acq : Except String (List RawCard)) : HandlerOutcome DomReport :=
  let date := resolveQ dateQ "today"
  let flightType := resolveQ flightTypeQ "domestic"
  match validateParamsDom date flightType with
  | some msg => .badRequest msg
  | none =>
    match acq with
    | .error e => .serverError e
    | .ok cards => .ok (domAggregate (getFlightTimesCards cards))

/-- Whether a handler outcome is the 400 branch. -/
def HandlerOutcome.isBadRequest : HandlerOutcome ρ → Bool
  | .badRequest _ => true
  | _ => false

/-- Hour classification used in the round-trip statements: an hour value that
parses but lies outside 0..23 is tallied into a bucket the report never
emits. -/
def outOfRangeHour : Option Int → Bool
  | none => false
  | some h => decide (h < 0) || decide (24 ≤ h)

/-- Hour classification: a parsed hour that the report emits. -/
def emittedHour : Option Int → Bool
  | none => false
  | some h => decide (0 ≤ h) && decide (h < 24)

/-! ## General lemmas about the aggregation core -/

/-- Pointwise description of the hour histogram fold: each bucket component of
the accumulated map is the starting component plus a `countP`. -/
theorem foldl_addFlight_apply (hourOf : α → Option Int) (t3 : α → Bool)
    (l : List α) : ∀ (m : Int → Bucket) (k : Int),
    (l.foldl (addFlight hourOf t3) m) k =
      ⟨(m k).T2 + l.countP (fun f => hourOf f == some k && !(t3 f)),
       (m k).T3 + l.countP (fun f => hourOf f == some k && t3 f),
       (m k).total + l.countP (fun f => hourOf f == some k)⟩ := by
  induction l with
  | nil => intro m k; simp [List.countP_nil]
  | cons f l ih =>
    intro m k
    rw [List.foldl_cons, ih]
    cases hf : hourOf f with
    | none =>
      simp [addFlight, hf, List.countP_cons]
    | some h =>
      by_cases hk : k = h
      · subst hk
        cases ht : t3 f <;>
          simp [addFlight, hf, ht, List.countP_cons, bumpBucket] <;> omega
      · have hbeq : (k == h) = false := by simp [hk]
        have hek : (hourOf f == some k) = false := by
          rw [hf]
          simp
          omega
        have hm : addFlight hourOf t3 m f k = m k := by
          simp [addFlight, hf, hbeq]
        rw [hm]
        simp [List.countP_cons, hek]

/-- The final hour histogram, bucket by bucket, as flight counts. -/
theorem countByHour_eq (hourOf : α → Option Int) (t3 : α → Bool)
    (l : List α) (k : Int) :
    countByHour hourOf t3 l k =
      ⟨l.countP (fun f => hourOf f == some k && !(t3 f)),
       l.countP (fun f => hourOf f == some k && t3 f),
       l.countP (fun f => hourOf f == some k)⟩ := by
  rw [countByHour, foldl_addFlight_apply]
  simp [zeroBucket]

/-- The histogram is invariant under permutation of the flight list. -/
theorem countByHour_perm (hourOf : α → Option Int) (t3 : α → Bool)
    {l l' : List α} (hp : l.Perm l') (k : Int) :
    countByHour hourOf t3 l' k = countByHour hourOf t3 l k := by
  rw [countByHour_eq, countByHour_eq,
    hp.countP_eq, hp.countP_eq, hp.countP_eq]

/-- The peak-hours scan reads the histogram only at hours 0..23. -/
theorem peakScan_congr {c1 c2 : Int → Bucket}
    (h : ∀ n : Nat, n < 24 → c1 ((n : Nat) : Int) = c2 ((n : Nat) : Int)) :
    peakScan c1 = peakScan c2 := by
  have aux : ∀ (l : List Nat), (∀ n ∈ l, c1 ((n : Nat) : Int) = c2 ((n : Nat) : Int)) →
      ∀ st, l.foldl (peakStep c1) st = l.foldl (peakStep c2) st := by
    intro l
    induction l with
    | nil => intro _ _; rfl
    | cons n l ih =>
      intro hmem st
      rw [List.foldl_cons, List.foldl_cons]
      have hstep : peakStep c1 st n = peakStep c2 st n := by
        unfold peakStep
        rw [hmem n (by simp)]
      rw [hstep]
      exact ih (fun x hx => hmem x (by simp [hx])) _
  unfold peakScan
  exact aux _ (fun n hn => h n (List.mem_range.mp hn)) _

/-- Sums of pointwise sums of maps split. -/
theorem sum_map_add (g1 g2 : Nat → Nat) (xs : List Nat) :
    (xs.map (fun x => g1 x + g2 x)).sum = (xs.map g1).sum + (xs.map g2).sum := by
  induction xs with
  | nil => simp
  | cons x xs ih =>
    simp [ih]
    omega

/-- A missing hour matches no bucket index. -/
theorem sum_indicator_none (n : Nat) :
    ((List.range n).map
      (fun h => if (none : Option Int) == some ((h : Nat) : Int) then 1 else 0)).sum = 0 := by
  induction n with
  | zero => rfl
  | succ n ih =>
    rw [List.range_succ]
    simp [ih]

/-- A parsed hour matches exactly one bucket index of `0..n-1` when it lies in
range, and none otherwise. -/
theorem sum_indicator_some (v : Int) : ∀ (n : Nat),
    ((List.range n).map
      (fun h => if (some v : Option Int) == some ((h : Nat) : Int) then 1 else 0)).sum
      = if 0 ≤ v ∧ v < (n : Int) then 1 else 0 := by
  intro n
  induction n with
  | zero =>
    rw [if_neg (by omega)]
    rfl
  | succ n ih =>
    rw [List.range_succ, List.map_append, List.sum_append, ih]
    simp only [List.map_cons, List.map_nil, List.sum_cons, List.sum_nil, beq_iff_eq,
      Option.some.injEq, Nat.cast_succ]
    split_ifs <;> omega

/-- Every flight falls into exactly one of three classes: an emitted bucket
hour 0..23, an unparsable hour, or a parsed hour outside 0..23. -/
theorem hour_partition (hourOf : α → Option Int) (l : List α) :
    ((List.range 24).map
        (fun h => l.countP (fun f => hourOf f == some ((h : Nat) : Int)))).sum
      + l.countP (fun f => (hourOf f).isNone)
      + l.countP (fun f => outOfRangeHour (hourOf f)) = l.length := by
  induction l with
  | nil => simp
  | cons f l ih =>
    simp only [List.countP_cons, List.length_cons]
    rw [sum_map_add]
    cases ho : hourOf f with
    | none =>
      rw [sum_indicator_none]
      have hoor : outOfRangeHour (none : Option Int) = false := rfl
      simp only [Option.isNone_none, hoor, Bool.false_eq_true, if_false, if_true]
      omega
    | some v =>
      rw [sum_indicator_some]
      have hoor : outOfRangeHour (some v) = (decide (v < 0) || decide (24 ≤ v)) := rfl
      simp only [Option.isNone_some, Bool.false_eq_true, if_false, hoor,
        Bool.or_eq_true, decide_eq_true_eq]
      split_ifs <;> omega

/-- Bridge between the terminal conditional and its condition. -/
theorem ifT3_eq (b : Bool) :
    (if b then Terminal.T3 else Terminal.T2) = Terminal.T3 ↔ b = true := by
  cases b <;> simp

/-- C1 counterexample: aggregating the empty flight list in the DOM-scraped
variant leaves `minFlights` at `Infinity` (modelled as `none`), so the trough
count is not the claimed 0. -/
theorem c1_counterexample :
    (domAggregate []).lowest_count ≠ some 0 ∧ (domAggregate []).lowest_count = none := by
  decide

/-- C1 (amended): aggregation of the empty flight list yields all 24 zeroed
buckets, zero status counts, and peak max = hour 0-1 with count 0 in both
variants; the trough is hour 0-1 with count 0 in the API variant, but in the
DOM variant the trough count is the untouched `Infinity` sentinel (`none`). -/
theorem c1_empty_aggregation :
    apiAggregate 0 [] =
      { total_flights := 0, flight_count := List.replicate 24 ⟨0, 0, 0⟩,
        flight_statuses := ⟨0, 0, 0⟩, max_hour := 0, max_count := 0,
        lowest_hour := 0, lowest_count := 0, airlines := [], locations := [],
        sample_flights := [] } ∧
    domAggregate [] =
      { total_flights := 0, flight_count := List.replicate 24 ⟨0, 0, 0⟩,
        flight_statuses := ⟨0, 0, 0⟩, max_hour := 0, max_count := 0,
        lowest_hour := 0, lowest_count := none, airlines := [], origins := [],
        sample_flights := [] } := by
  decide

/-- C6: in both variants the terminal is T3 exactly when the (lowercased)
airline text contains "qantas"; "Qantas Airways" and "QANTAS" give T3,
"Jetstar" gives T2. -/
theorem c6_qantas_terminal :
    (∀ r : ApiRecord, (normalizeApi r).terminal = Terminal.T3 ↔
        strIncludes (strLower (r.airline.getD "")) "qantas" = true) ∧
    (∀ c : DomCard, domIsT3 (normalizeDom c) = true ↔
        strIncludes (strLower (strTrim (c.airlineEl.getD ""))) "qantas" = true) ∧
    (normalizeApi { airline := some "Qantas Airways" }).terminal = Terminal.T3 ∧
    (normalizeApi { airline := some "QANTAS" }).terminal = Terminal.T3 ∧
    (normalizeApi { airline := some "Jetstar" }).terminal = Terminal.T2 ∧
    domIsT3 (normalizeDom { airlineEl := some "Qantas Airways" }) = true ∧
    domIsT3 (normalizeDom { airlineEl := some "QANTAS" }) = true ∧
    domIsT3 (normalizeDom { airlineEl := some "Jetstar" }) = false := by
  refine ⟨fun r => ?_, fun c => ?_,
    by decide, by decide, by decide, by decide, by decide, by decide⟩
  · have hterm : (normalizeApi r).terminal
        = if apiIsT3 r then Terminal.T3 else Terminal.T2 := rfl
    rw [hterm, ifT3_eq]
    unfold apiIsT3
    cases ha : r.airline with
    | none =>
      simp [jsTruthy]
      decide
    | some s =>
      cases hse : s.isEmpty with
      | true =>
        have hs : s = "" := (String.isEmpty_iff s).mp hse
        subst hs
        simp [jsTruthy]
        decide
      | false =>
        simp [jsTruthy, hse]
  · cases ha : c.airlineEl with
    | none =>
      simp [domIsT3, normalizeDom, ha]
      decide
    | some t =>
      simp [domIsT3, normalizeDom, ha]

/-- C7: both classifiers are total functions into the three-valued status
enum, and a record with missing status information classifies as the on-time
default; as Lean functions they are pure and deterministic by construction. -/
theorem c7_classifier_total :
    (∀ r : ApiRecord,
      apiStatus r = .onTime ∨ apiStatus r = .delayed ∨ apiStatus r = .cancelled) ∧
    (∀ r : ApiRecord, jsTruthy r.status = false → apiStatus r = .onTime) ∧
    (∀ c : DomCard,
      domStatus c = .onTime ∨ domStatus c = .delayed ∨ domStatus c = .cancelled) ∧
    (∀ c : DomCard, c.statusEl = none → domStatus c = .onTime) := by
  refine ⟨fun r => ?_, fun r h => ?_, fun c => ?_, fun c h => ?_⟩
  · cases h : apiStatus r with
    | onTime => exact .inl rfl
    | delayed => exact .inr (.inl rfl)
    | cancelled => exact .inr (.inr rfl)
  · simp [apiStatus, h]
  · cases h : domStatus c with
    | onTime => exact .inl rfl
    | delayed => exact .inr (.inl rfl)
    | cancelled => exact .inr (.inr rfl)
  · simp [domStatus, h]

/-- C7 witness: a record whose status text is empty is classified on-time even
though its estimated time differs, and a card with no status element is
on-time. -/
theorem c7_classifier_total_witness :
    apiStatus { status := some "", estimatedTime := some "12:30",
                scheduledTime := some "12:00" } = .onTime ∧
    domStatus { statusEl := none, delayedTimeSmall := true } = .onTime :=
  ⟨c7_classifier_total.2.1 _ (by decide), c7_classifier_total.2.2.2 _ rfl⟩

/-- Bridge between the delayed conditional and its condition. -/
theorem ite_delayed_eq (b : Bool) :
    (if b = true then FlightStatus.delayed else FlightStatus.onTime)
      = FlightStatus.delayed ↔ b = true := by
  cases b <;> simp

/-- C3 counterexample: a record with missing status text but a non-empty,
non-placeholder estimated time differing from the scheduled time is classified
on-time, not delayed, because the API-variant classifier is guarded by
`if (flight.status)`. -/
theorem c3_counterexample :
    jsTruthy (some "12:30") = true ∧
    (some "12:30" : Option String) ≠ some "-" ∧
    (some "12:30" : Option String) ≠ some "12:00" ∧
    apiStatus { status := none, estimatedTime := some "12:30",
                scheduledTime := some "12:00" } = .onTime := by
  decide

/-- C3 (amended): for records whose status text is non-empty (truthy) and does
not match the cancelled rule, the API-variant classifier returns delayed
exactly when the lowercased status text contains "delay" or the delay hint
holds; the severity hint (`statusColor`) is never consulted, and records with
missing or empty status text are always classified on-time. -/
theorem c3_delayed_rule :
    (∀ r : ApiRecord, jsTruthy r.status = true →
      strIncludes (strLower (r.status.getD "")) "cancel" = false →
      (apiStatus r = .delayed ↔
        (strIncludes (strLower (r.status.getD "")) "delay" = true ∨
          (jsTruthy r.estimatedTime = true ∧ r.estimatedTime ≠ r.scheduledTime ∧
            r.estimatedTime ≠ some "-")))) ∧
    (∀ r : ApiRecord, jsTruthy r.status = false → apiStatus r = .onTime) := by
  constructor
  · intro r htr hcan
    simp only [apiStatus]
    rw [if_pos htr, if_neg (by simp [hcan]), ite_delayed_eq]
    simp [Bool.or_eq_true, Bool.and_eq_true, Bool.not_eq_true', beq_eq_false_iff_ne,
      and_assoc]
  · intro r h
    simp [apiStatus, h]

/-- C3 witness: a record with status text "Boarding" (neither cancel nor delay
marker) but an estimated time differing from the scheduled time is delayed. -/
theorem c3_delayed_rule_witness :
    apiStatus { status := some "Boarding", estimatedTime := some "12:30",
                scheduledTime := some "12:00" } = .delayed :=
  (c3_delayed_rule.1 _ (by decide) (by decide)).mpr
    (Or.inr ⟨by decide, by decide, by decide⟩)

/-- C5 counterexample: in the DOM-scraped variant the status text "Cancel"
(which does contain "cancel" after lowercasing) is not classified cancelled,
because that variant searches for the substring "cancelled". -/
theorem c5_counterexample :
    strIncludes (strLower (strTrim "Cancel")) "cancel" = true ∧
    domStatus { statusEl := some { text := "Cancel", red := false, amber := false } }
      = .onTime := by
  decide

/-- C5 (amended): the cancelled rule is evaluated first in both variants, but
the variants differ: the DOM variant returns cancelled exactly when a status
element exists whose lowercased trimmed text contains "cancelled" or which has
the red class; the API variant returns cancelled exactly when the status text
is truthy and its lowercased form contains "cancel", and never consults the
`statusColor` severity hint. -/
theorem c5_cancelled_rule :
    (∀ c : DomCard, domStatus c = .cancelled ↔
      ∃ e, c.statusEl = some e ∧
        (strIncludes (strLower (strTrim e.text)) "cancelled" = true ∨ e.red = true)) ∧
    (∀ r : ApiRecord, apiStatus r = .cancelled ↔
      (jsTruthy r.status = true ∧
        strIncludes (strLower (r.status.getD "")) "cancel" = true)) := by
  constructor
  · intro c
    cases hse : c.statusEl with
    | none => simp [domStatus, hse]
    | some e =>
      constructor
      · intro hC
        by_cases h1 : (strIncludes (strLower (strTrim e.text)) "cancelled" || e.red) = true
        · exact ⟨e, rfl, Bool.or_eq_true_iff.mp h1⟩
        · exfalso
          have hne : domStatus c ≠ .cancelled := by
            simp only [domStatus, hse]
            rw [if_neg h1]
            split_ifs <;> simp
          exact hne hC
      · rintro ⟨e', he', hcond⟩
        injection he' with he'
        subst he'
        simp only [domStatus, hse]
        rw [if_pos (Bool.or_eq_true_iff.mpr hcond)]
  · intro r
    by_cases ht : jsTruthy r.status = true
    · by_cases hc : strIncludes (strLower (r.status.getD "")) "cancel" = true
      · simp only [apiStatus]
        rw [if_pos ht, if_pos hc]
        simp [ht, hc]
      · simp only [apiStatus]
        rw [if_pos ht, if_neg hc]
        constructor
        · intro hcon
          split_ifs at hcon
        · rintro ⟨-, hcc⟩
          exact absurd hcc hc
    · have ht' : jsTruthy r.status = false := by
        cases hjs : jsTruthy r.status
        · rfl
        · exact absurd hjs ht
      simp only [apiStatus]
      rw [if_neg ht]
      simp [ht']

/-- C4 counterexample: in the API variant one malformed record among the raw
records aborts the whole request with a 500-style failure instead of being
skipped, because the `map` callback has no per-record error handler. -/
theorem c4_counterexample :
    apiHandler none none none
        (Except.ok (some (2, [RawApi.entry {}, RawApi.malformed])))
      = HandlerOutcome.serverError "TypeError" := by
  decide

/-- C4 (amended): per-record error isolation holds only in the DOM-scraped
variant, where a throwing card is skipped and extraction continues with the
remaining cards; in the API variant a throwing record aborts the whole batch
and the error escalates to a request-level failure. -/
theorem c4_error_isolation :
    (∀ (pre post : List RawCard),
      getFlightTimesCards (pre ++ RawCard.malformed :: post)
        = getFlightTimesCards pre ++ getFlightTimesCards post) ∧
    (∀ (pre post : List RawApi),
      mapFlights (pre ++ RawApi.malformed :: post) = Except.error "TypeError") := by
  constructor
  · intro pre post
    simp [getFlightTimesCards, List.filterMap_append, List.filterMap_cons]
  · intro pre post
    induction pre with
    | nil => rfl
    | cons r pre ih =>
      cases r with
      | entry a =>
        have heq : (RawApi.entry a :: pre) ++ RawApi.malformed :: post
            = RawApi.entry a :: (pre ++ RawApi.malformed :: post) := rfl
        rw [heq]
        simp only [mapFlights, processApiRecord]
        rw [ih]
        rfl
      | malformed => rfl

/-- C9 counterexample: an empty-string `flightType` parameter lies outside the
enumerated set yet passes validation (each check is guarded by truthiness), so
the handler proceeds to acquisition and aggregation instead of returning 400. -/
theorem c9_counterexample :
    validFlightTypes.contains "" = false ∧
    apiHandler (some "today") (some "") (some "departure")
        (Except.ok (some (0, [])))
      = HandlerOutcome.ok (apiAggregate 0 []) := by
  decide

/-- C9 (amended): for every request in which some parameter is a non-empty
string outside its enumerated set, both handlers return the 400 branch with a
descriptive message and the outcome is independent of the acquisition result
(acquisition and aggregation are never consulted); empty-string parameters are
exempt because each validation check is truthiness-guarded. -/
theorem c9_validation :
    (∀ (dateQ ftQ fdQ : Option String)
        (acq acq' : Except String (Option (Nat × List RawApi))),
      ((strTruthy (resolveQ ftQ "domestic") = true ∧
          validFlightTypes.contains (resolveQ ftQ "domestic") = false) ∨
        (strTruthy (resolveQ dateQ "today") = true ∧
          validDates.contains (resolveQ dateQ "today") = false) ∨
        (strTruthy (resolveQ fdQ "departure") = true ∧
          validDirections.contains (resolveQ fdQ "departure") = false)) →
      ((apiHandler dateQ ftQ fdQ acq).isBadRequest = true ∧
        apiHandler dateQ ftQ fdQ acq = apiHandler dateQ ftQ fdQ acq')) ∧
    (∀ (dateQ ftQ : Option String) (acq acq' : Except String (List RawCard)),
      ((strTruthy (resolveQ ftQ "domestic") = true ∧
          validFlightTypes.contains (resolveQ ftQ "domestic") = false) ∨
        (strTruthy (resolveQ dateQ "today") = true ∧
          validDates.contains (resolveQ dateQ "today") = false)) →
      ((domHandler dateQ ftQ acq).isBadRequest = true ∧
        domHandler dateQ ftQ acq = domHandler dateQ ftQ acq')) := by
  have hval : ∀ date ft fd : String,
      ((strTruthy ft = true ∧ validFlightTypes.contains ft = false) ∨
        (strTruthy date = true ∧ validDates.contains date = false) ∨
        (strTruthy fd = true ∧ validDirections.contains fd = false)) →
      ∃ msg, validateParams date ft fd = some msg := by
    intro date ft fd h
    unfold validateParams
    by_cases h1 : (strTruthy ft && !validFlightTypes.contains ft) = true
    · rw [if_pos h1]
      exact ⟨_, rfl⟩
    · rw [if_neg h1]
      by_cases h2 : (strTruthy date && !validDates.contains date) = true
      · rw [if_pos h2]
        exact ⟨_, rfl⟩
      · rw [if_neg h2]
        by_cases h3 : (strTruthy fd && !validDirections.contains fd) = true
        · rw [if_pos h3]
          exact ⟨_, rfl⟩
        · exfalso
          rcases h with ⟨ha, hb⟩ | ⟨ha, hb⟩ | ⟨ha, hb⟩
          · exact h1 (by rw [Bool.and_eq_true, Bool.not_eq_true']; exact ⟨ha, hb⟩)
          · exact h2 (by rw [Bool.and_eq_true, Bool.not_eq_true']; exact ⟨ha, hb⟩)
          · exact h3 (by rw [Bool.and_eq_true, Bool.not_eq_true']; exact ⟨ha, hb⟩)
  have hvalDom : ∀ date ft : String,
      ((strTruthy ft = true ∧ validFlightTypes.contains ft = false) ∨
        (strTruthy date = true ∧ validDates.contains date = false)) →
      ∃ msg, validateParamsDom date ft = some msg := by
    intro date ft h
    unfold validateParamsDom
    by_cases h1 : (strTruthy ft && !validFlightTypes.contains ft) = true
    · rw [if_pos h1]
      exact ⟨_, rfl⟩
    · rw [if_neg h1]
      by_cases h2 : (strTruthy date && !validDates.contains date) = true
      · rw [if_pos h2]
        exact ⟨_, rfl⟩
      · exfalso
        rcases h with ⟨ha, hb⟩ | ⟨ha, hb⟩
        · exact h1 (by rw [Bool.and_eq_true, Bool.not_eq_true']; exact ⟨ha, hb⟩)
        · exact h2 (by rw [Bool.and_eq_true, Bool.not_eq_true']; exact ⟨ha, hb⟩)
  constructor
  · intro dateQ ftQ fdQ acq acq' h
    obtain ⟨msg, hm⟩ := hval (resolveQ dateQ "today") (resolveQ ftQ "domestic")
      (resolveQ fdQ "departure") h
    constructor
    · simp only [apiHandler]
      rw [hm]
      rfl
    · simp only [apiHandler]
      rw [hm]
  · intro dateQ ftQ acq acq' h
    obtain ⟨msg, hm⟩ := hvalDom (resolveQ dateQ "today") (resolveQ ftQ "domestic") h
    constructor
    · simp only [domHandler]
      rw [hm]
      rfl
    · simp only [domHandler]
      rw [hm]

/-- C9 witness: `flightType=domestic2` is rejected with a 400 regardless of
what acquisition would have returned. -/
theorem c9_validation_witness :
    (apiHandler (some "today") (some "domestic2") (some "departure")
        (Except.error "down")).isBadRequest = true ∧
    apiHandler (some "today") (some "domestic2") (some "departure")
        (Except.error "down")
      = apiHandler (some "today") (some "domestic2") (some "departure")
          (Except.ok (some (0, []))) :=
  c9_validation.1 _ _ _ _ _ (Or.inl ⟨by decide, by decide⟩)

/-- The emitted histogram of the DOM-variant report, by definition. -/
theorem domAggregate_flight_count (l : List DomFlight) :
    (domAggregate l).flight_count
      = (List.range 24).map (fun h => countByHour domHourOf domIsT3 l ((h : Nat) : Int)) := rfl

/-- The emitted histogram of the API-variant report, by definition. -/
theorem apiAggregate_flight_count (t : Nat) (l : List ApiFlight) :
    (apiAggregate t l).flight_count
      = (List.range 24).map (fun h => countByHour apiHourOf apiT3 l ((h : Nat) : Int)) := rfl

/-- C2 counterexample: a single flight with scheduled time "25:10" parses to
hour 25, so it lands in a bucket the report never emits: the emitted totals
sum to 0 and no scheduled time failed parsing, yet `total_flights` is 1. -/
theorem c2_counterexample :
    ((domAggregate [normalizeDom { scheduledTimeEl := some "25:10" }]).flight_count.map
        Bucket.total).sum
      + List.countP (fun f => (domHourOf f).isNone)
          [normalizeDom { scheduledTimeEl := some "25:10" }]
      ≠ (domAggregate [normalizeDom { scheduledTimeEl := some "25:10" }]).total_flights ∧
    ((domAggregate [normalizeDom { scheduledTimeEl := some "25:10" }]).flight_count.map
        Bucket.total).sum = 0 ∧
    List.countP (fun f => (domHourOf f).isNone)
        [normalizeDom { scheduledTimeEl := some "25:10" }] = 0 ∧
    (domAggregate [normalizeDom { scheduledTimeEl := some "25:10" }]).total_flights = 1 := by
  decide

/-- C2 (amended): summing the 24 emitted bucket totals plus the flights whose
scheduled time fails hour parsing plus the flights whose parsed hour lies
outside 0..23 equals the number of processed flights; the DOM variant reports
that number as `total_flights`, while the API variant reports the upstream
`totalFlightCount` instead. -/
theorem c2_round_trip :
    (∀ l : List DomFlight,
      ((domAggregate l).flight_count.map Bucket.total).sum
          + l.countP (fun f => (domHourOf f).isNone)
          + l.countP (fun f => outOfRangeHour (domHourOf f)) = l.length
        ∧ (domAggregate l).total_flights = l.length) ∧
    (∀ (t : Nat) (l : List ApiFlight),
      ((apiAggregate t l).flight_count.map Bucket.total).sum
          + l.countP (fun f => (apiHourOf f).isNone)
          + l.countP (fun f => outOfRangeHour (apiHourOf f)) = l.length
        ∧ (apiAggregate t l).total_flights = t) := by
  constructor
  · intro l
    refine ⟨?_, rfl⟩
    rw [domAggregate_flight_count, List.map_map]
    have hcomp : (Bucket.total ∘ fun h => countByHour domHourOf domIsT3 l ((h : Nat) : Int))
        = fun h => l.countP (fun f => domHourOf f == some ((h : Nat) : Int)) := by
      funext h
      simp only [Function.comp_apply]
      rw [countByHour_eq]
    rw [hcomp]
    exact hour_partition domHourOf l
  · intro t l
    refine ⟨?_, rfl⟩
    rw [apiAggregate_flight_count, List.map_map]
    have hcomp : (Bucket.total ∘ fun h => countByHour apiHourOf apiT3 l ((h : Nat) : Int))
        = fun h => l.countP (fun f => apiHourOf f == some ((h : Nat) : Int)) := by
      funext h
      simp only [Function.comp_apply]
      rw [countByHour_eq]
    rw [hcomp]
    exact hour_partition apiHourOf l

/-- C8: permuting the flight list changes neither the status counts nor any
hour bucket of the histogram, in either variant, while `sample_flights` is the
first five flights of the unpermuted source order. -/
theorem c8_order_invariance :
    (∀ (l l' : List DomFlight), l.Perm l' →
      (domAggregate l').flight_statuses = (domAggregate l).flight_statuses ∧
      (domAggregate l').flight_count = (domAggregate l).flight_count ∧
      (domAggregate l).sample_flights = l.take 5) ∧
    (∀ (t : Nat) (l l' : List ApiFlight), l.Perm l' →
      (apiAggregate t l').flight_statuses = (apiAggregate t l).flight_statuses ∧
      (apiAggregate t l').flight_count = (apiAggregate t l).flight_count ∧
      (apiAggregate t l).sample_flights = l.take 5) := by
  constructor
  · intro l l' hp
    refine ⟨?_, ?_, rfl⟩
    · show (⟨(l'.filter (fun f => f.status == FlightStatus.onTime)).length,
            (l'.filter (fun f => f.status == FlightStatus.cancelled)).length,
            (l'.filter (fun f => f.status == FlightStatus.delayed)).length⟩ : Statuses)
        = ⟨(l.filter (fun f => f.status == FlightStatus.onTime)).length,
           (l.filter (fun f => f.status == FlightStatus.cancelled)).length,
           (l.filter (fun f => f.status == FlightStatus.delayed)).length⟩
      rw [(hp.filter (fun f => f.status == FlightStatus.onTime)).length_eq,
        (hp.filter (fun f => f.status == FlightStatus.cancelled)).length_eq,
        (hp.filter (fun f => f.status == FlightStatus.delayed)).length_eq]
    · rw [domAggregate_flight_count, domAggregate_flight_count]
      have hfun : (fun h : Nat => countByHour domHourOf domIsT3 l' ((h : Nat) : Int))
          = (fun h : Nat => countByHour domHourOf domIsT3 l ((h : Nat) : Int)) := by
        funext h
        exact countByHour_perm _ _ hp _
      rw [hfun]
  · intro t l l' hp
    refine ⟨?_, ?_, rfl⟩
    · show (⟨(l'.filter (fun f => f.status == FlightStatus.onTime)).length,
            (l'.filter (fun f => f.status == FlightStatus.cancelled)).length,
            (l'.filter (fun f => f.status == FlightStatus.delayed)).length⟩ : Statuses)
        = ⟨(l.filter (fun f => f.status == FlightStatus.onTime)).length,
           (l.filter (fun f => f.status == FlightStatus.cancelled)).length,
           (l.filter (fun f => f.status == FlightStatus.delayed)).length⟩
      rw [(hp.filter (fun f => f.status == FlightStatus.onTime)).length_eq,
        (hp.filter (fun f => f.status == FlightStatus.cancelled)).length_eq,
        (hp.filter (fun f => f.status == FlightStatus.delayed)).length_eq]
    · rw [apiAggregate_flight_count, apiAggregate_flight_count]
      have hfun : (fun h : Nat => countByHour apiHourOf apiT3 l' ((h : Nat) : Int))
          = (fun h : Nat => countByHour apiHourOf apiT3 l ((h : Nat) : Int)) := by
        funext h
        exact countByHour_perm _ _ hp _
      rw [hfun]

/-- C8 witness: swapping two concrete flights leaves statuses and buckets
unchanged, and the sample is the first five of the original order. -/
theorem c8_order_invariance_witness :
    (domAggregate [normalizeDom { scheduledTimeEl := some "09:40", airlineEl := some "Jetstar" },
        normalizeDom { scheduledTimeEl := some "09:15", airlineEl := some "Qantas" }]).flight_statuses
      = (domAggregate [normalizeDom { scheduledTimeEl := some "09:15", airlineEl := some "Qantas" },
          normalizeDom { scheduledTimeEl := some "09:40", airlineEl := some "Jetstar" }]).flight_statuses ∧
    (domAggregate [normalizeDom { scheduledTimeEl := some "09:40", airlineEl := some "Jetstar" },
        normalizeDom { scheduledTimeEl := some "09:15", airlineEl := some "Qantas" }]).flight_count
      = (domAggregate [normalizeDom { scheduledTimeEl := some "09:15", airlineEl := some "Qantas" },
          normalizeDom { scheduledTimeEl := some "09:40", airlineEl := some "Jetstar" }]).flight_count ∧
    (domAggregate [normalizeDom { scheduledTimeEl := some "09:15", airlineEl := some "Qantas" },
        normalizeDom { scheduledTimeEl := some "09:40", airlineEl := some "Jetstar" }]).sample_flights
      = [normalizeDom { scheduledTimeEl := some "09:15", airlineEl := some "Qantas" },
         normalizeDom { scheduledTimeEl := some "09:40", airlineEl := some "Jetstar" }].take 5 :=
  c8_order_invariance.1 _ _ (List.Perm.swap _ _ _)

/-- Appending one flight whose parsed hour lies outside 0..23 leaves every
emitted bucket and the peak scan unchanged while incrementing its own
(internal, never emitted) bucket. -/
theorem out_of_range_aux (hourOf : α → Option Int) (t3 : α → Bool)
    (l : List α) (f : α) (h : Int) (hf : hourOf f = some h)
    (hout : h < 0 ∨ 24 ≤ h) :
    (∀ n : Nat, n < 24 → countByHour hourOf t3 (l ++ [f]) ((n : Nat) : Int)
        = countByHour hourOf t3 l ((n : Nat) : Int)) ∧
    peakScan (countByHour hourOf t3 (l ++ [f])) = peakScan (countByHour hourOf t3 l) ∧
    (countByHour hourOf t3 (l ++ [f]) h).total
      = (countByHour hourOf t3 l h).total + 1 := by
  have hck : ∀ n : Nat, n < 24 →
      countByHour hourOf t3 (l ++ [f]) ((n : Nat) : Int)
        = countByHour hourOf t3 l ((n : Nat) : Int) := by
    intro n hn
    rw [countByHour_eq, countByHour_eq]
    have hne : (hourOf f == some ((n : Nat) : Int)) = false := by
      rw [hf]
      simp
      omega
    simp [List.countP_append, List.countP_cons, hne]
  refine ⟨hck, peakScan_congr hck, ?_⟩
  rw [countByHour_eq, countByHour_eq]
  have hpe : (hourOf f == some h) = true := by
    rw [hf]
    simp
  simp [List.countP_append, List.countP_cons, hpe]

/-- Appending one element changes a filtered length by its own indicator. -/
theorem filter_append_singleton (p : α → Bool) (l : List α) (f : α) :
    ((l ++ [f]).filter p).length = (l.filter p).length + (if p f then 1 else 0) := by
  rw [List.filter_append, List.length_append]
  cases hp : p f <;> simp [List.filter_cons, hp]

/-- C10: a flight whose scheduled time parses to an hour outside 0..23 is
tallied into an internal bucket that is never emitted: appending such a flight
changes no emitted `flight_count` entry and no peak or trough field, increments
its internal bucket, and still bumps the status counts — in both variants. -/
theorem c10_out_of_range_bucket :
    (∀ (l : List DomFlight) (f : DomFlight) (h : Int),
      domHourOf f = some h → (h < 0 ∨ 24 ≤ h) →
      (domAggregate (l ++ [f])).flight_count = (domAggregate l).flight_count ∧
      (domAggregate (l ++ [f])).max_hour = (domAggregate l).max_hour ∧
      (domAggregate (l ++ [f])).max_count = (domAggregate l).max_count ∧
      (domAggregate (l ++ [f])).lowest_hour = (domAggregate l).lowest_hour ∧
      (domAggregate (l ++ [f])).lowest_count = (domAggregate l).lowest_count ∧
      (countByHour domHourOf domIsT3 (l ++ [f]) h).total
        = (countByHour domHourOf domIsT3 l h).total + 1 ∧
      (domAggregate (l ++ [f])).flight_statuses.on_time
        = (domAggregate l).flight_statuses.on_time
          + (if f.status == FlightStatus.onTime then 1 else 0) ∧
      (domAggregate (l ++ [f])).flight_statuses.cancelled
        = (domAggregate l).flight_statuses.cancelled
          + (if f.status == FlightStatus.cancelled then 1 else 0) ∧
      (domAggregate (l ++ [f])).flight_statuses.delayed
        = (domAggregate l).flight_statuses.delayed
          + (if f.status == FlightStatus.delayed then 1 else 0)) ∧
    (∀ (t : Nat) (l : List ApiFlight) (f : ApiFlight) (h : Int),
      apiHourOf f = some h → (h < 0 ∨ 24 ≤ h) →
      (apiAggregate t (l ++ [f])).flight_count = (apiAggregate t l).flight_count ∧
      (apiAggregate t (l ++ [f])).max_hour = (apiAggregate t l).max_hour ∧
      (apiAggregate t (l ++ [f])).max_count = (apiAggregate t l).max_count ∧
      (apiAggregate t (l ++ [f])).lowest_hour = (apiAggregate t l).lowest_hour ∧
      (apiAggregate t (l ++ [f])).lowest_count = (apiAggregate t l).lowest_count ∧
      (countByHour apiHourOf apiT3 (l ++ [f]) h).total
        = (countByHour apiHourOf apiT3 l h).total + 1 ∧
      (apiAggregate t (l ++ [f])).flight_statuses.on_time
        = (apiAggregate t l).flight_statuses.on_time
          + (if f.status == FlightStatus.onTime then 1 else 0) ∧
      (apiAggregate t (l ++ [f])).flight_statuses.cancelled
        = (apiAggregate t l).flight_statuses.cancelled
          + (if f.status == FlightStatus.cancelled then 1 else 0) ∧
      (apiAggregate t (l ++ [f])).flight_statuses.delayed
        = (apiAggregate t l).flight_statuses.delayed
          + (if f.status == FlightStatus.delayed then 1 else 0)) := by
  constructor
  · intro l f h hf hout
    obtain ⟨hck, hpeak, hbump⟩ := out_of_range_aux domHourOf domIsT3 l f h hf hout
    refine ⟨?_, ?_, ?_, ?_, ?_, hbump, ?_, ?_, ?_⟩
    · rw [domAggregate_flight_count, domAggregate_flight_count]
      apply List.map_congr_left
      intro k hk
      exact hck k (List.mem_range.mp hk)
    · show (peakScan (countByHour domHourOf domIsT3 (l ++ [f]))).maxHour
        = (peakScan (countByHour domHourOf domIsT3 l)).maxHour
      rw [hpeak]
    · show (peakScan (countByHour domHourOf domIsT3 (l ++ [f]))).maxFlights
        = (peakScan (countByHour domHourOf domIsT3 l)).maxFlights
      rw [hpeak]
    · show (peakScan (countByHour domHourOf domIsT3 (l ++ [f]))).minHour
        = (peakScan (countByHour domHourOf domIsT3 l)).minHour
      rw [hpeak]
    · show (peakScan (countByHour domHourOf domIsT3 (l ++ [f]))).minFlights
        = (peakScan (countByHour domHourOf domIsT3 l)).minFlights
      rw [hpeak]
    · exact filter_append_singleton _ l f
    · exact filter_append_singleton _ l f
    · exact filter_append_singleton _ l f
  · intro t l f h hf hout
    obtain ⟨hck, hpeak, hbump⟩ := out_of_range_aux apiHourOf apiT3 l f h hf hout
    refine ⟨?_, ?_, ?_, ?_, ?_, hbump, ?_, ?_, ?_⟩
    · rw [apiAggregate_flight_count, apiAggregate_flight_count]
      apply List.map_congr_left
      intro k hk
      exact hck k (List.mem_range.mp hk)
    · show (peakScan (countByHour apiHourOf apiT3 (l ++ [f]))).maxHour
        = (peakScan (countByHour apiHourOf apiT3 l)).maxHour
      rw [hpeak]
    · show (peakScan (countByHour apiHourOf apiT3 (l ++ [f]))).maxFlights
        = (peakScan (countByHour apiHourOf apiT3 l)).maxFlights
      rw [hpeak]
    · show (peakScan (countByHour apiHourOf apiT3 (l ++ [f]))).minHour
        = (peakScan (countByHour apiHourOf apiT3 l)).minHour
      rw [hpeak]
    · show (peakScan (countByHour apiHourOf apiT3 (l ++ [f]))).minFlights.getD 0
        = (peakScan (countByHour apiHourOf apiT3 l)).minFlights.getD 0
      rw [hpeak]
    · exact filter_append_singleton _ l f
    · exact filter_append_singleton _ l f
    · exact filter_append_singleton _ l f

/-- C10 witness: appending the "25:10" flight to the empty list leaves the
emitted histogram untouched while its internal hour-25 bucket reaches 1. -/
theorem c10_out_of_range_bucket_witness :
    (domAggregate ([] ++ [normalizeDom { scheduledTimeEl := some "25:10" }])).flight_count
      = (domAggregate []).flight_count ∧
    (countByHour domHourOf domIsT3
        ([] ++ [normalizeDom { scheduledTimeEl := some "25:10" }]) 25).total
      = (countByHour domHourOf domIsT3 ([] : List DomFlight) 25).total + 1 :=
  ⟨(c10_out_of_range_bucket.1 [] _ 25 (by decide) (by decide)).1,
   (c10_out_of_range_bucket.1 [] _ 25 (by decide) (by decide)).2.2.2.2.2.1⟩
